import Mathlib

/-!
# Verification of the odo Kubernetes component adapter

Shallow embedding of `pkg/devfile/adapters/kubernetes/component/adapter.go`
(and the kaniko build file of the same package): the reconciliation,
build-strategy selection, and command-execution logic, together with proofs
of the specified properties.

External collaborators (the cluster client, the file-sync service, the Go
`text/template` engine, the storage-name generator) are modelled as oracle
inputs: each call's result is a parameter of the embedded function, and the
embedding mirrors exactly how the adapter combines those results.
-/

namespace Odo

/-! ## Constants (adapter.go, `const` block) -/

def regcredName : String := "regcred"

def internalRegistryHost : String := "image-registry.openshift-image-registry.svc:5000"

/-! ## Internal-registry detection (adapter.go, `isInternalRegistry`)

Go:
```
components := strings.Split(imageTag, "/")
if len(components) != 3 { return false, fmt.Errorf(...) }
if components[0] == internalRegistryHost { return true, nil }
return false, nil
```
`strings.Split` with a single-character separator splits at every occurrence
of that character and keeps empty pieces; `splitOnChar`/`splitSlash` below is
that operation on the string's character list (structural recursion so that
it evaluates inside the kernel). -/

def splitOnChar (sep : Char) : List Char → List (List Char)
  | [] => [[]]
  | c :: cs =>
    if c = sep then [] :: splitOnChar sep cs
    else
      match splitOnChar sep cs with
      | [] => [[c]]
      | p :: ps => (c :: p) :: ps

/-- `strings.Split(s, "/")`. -/
def splitSlash (s : String) : List String :=
  (splitOnChar '/' s.data).map (fun l => String.mk l)

def isInternalRegistry (imageTag : String) : Except String Bool :=
  if (splitSlash imageTag).length ≠ 3 then
    .error ("Invalid image tag " ++ imageTag ++ ", must contain 3 components")
  else if (splitSlash imageTag).headD "" = internalRegistryHost then
    .ok true
  else
    .ok false

/-! ## Build strategy selection (adapter.go, `Build`)

`Build` probes the cluster for BuildConfig support, validates the tag with
`isInternalRegistry`, creates the `regcred` docker-config secret exactly when
the destination registry is not the internal one, and then selects the
strategy:

```
if isBuildConfigSupported && !parameters.Rootless {
    return a.runBuildConfig(client, parameters, isImageRegistryInternal)
} else {
    return a.runKaniko(parameters, isImageRegistryInternal)
}
```

The occlient construction, support probe and secret creation are collaborator
calls modelled on their success path; the tag validation error is the one the
function itself produces. -/

inductive BuildStrategy where
  | buildConfig
  | kaniko
deriving DecidableEq

structure BuildChoice where
  strategy : BuildStrategy
  internalRegistry : Bool
  regcredSecretCreated : Bool
deriving DecidableEq

def Build (isBuildConfigSupported rootless : Bool) (tag : String) : Except String BuildChoice :=
  match isInternalRegistry tag with
  | .error e => .error e
  | .ok isImageRegistryInternal =>
    let regcredSecretCreated := !isImageRegistryInternal
    if isBuildConfigSupported && !rootless then
      .ok ⟨.buildConfig, isImageRegistryInternal, regcredSecretCreated⟩
    else
      .ok ⟨.kaniko, isImageRegistryInternal, regcredSecretCreated⟩

/-! ## Kaniko builder pod (kaniko build file, `createKanikoBuilderPod`) -/

def kanikoSecret : String := "kaniko-secret"
def buildContext : String := "build-context"
def buildContextMountPath : String := "/root/build-context"
def kanikoSecretMountPath : String := "/root/.docker"
def completionFile : String := "/tmp/complete"

structure KeyToPath where
  key : String
  path : String
deriving DecidableEq

inductive VolumeSource where
  | secret (secretName : String) (items : List KeyToPath)
  | emptyDir
deriving DecidableEq

structure PodVolume where
  name : String
  source : VolumeSource
deriving DecidableEq

structure Container where
  name : String
  image : String
  command : List String
  args : List String
  volumeMounts : List (String × String)
deriving DecidableEq

structure BuilderPod where
  name : String
  restartPolicyNever : Bool
  runAsUser : Nat
  initContainers : List Container
  containers : List Container
  volumes : List PodVolume
deriving DecidableEq

def buildContextVolumeMount : String × String := (buildContext, buildContextMountPath)
def kanikoSecretVolumeMount : String × String := (kanikoSecret, kanikoSecretMountPath)

def builderContainer (name imageTag : String) : Container :=
  { name := name
    image := "gcr.io/kaniko-project/executor:latest"
    command := []
    args := ["--dockerfile=" ++ buildContextMountPath ++ "/Dockerfile",
             "--context=dir://" ++ buildContextMountPath,
             "--destination=" ++ imageTag]
    volumeMounts := [buildContextVolumeMount, kanikoSecretVolumeMount] }

def initContainer (name : String) : Container :=
  { name := name
    image := "busybox"
    command := ["/bin/sh", "-c"]
    args := ["while true; do sleep 1; if [ -f " ++ completionFile ++ " ]; then break; fi done"]
    volumeMounts := [buildContextVolumeMount] }

def createKanikoBuilderPod (componentName : String) (init builder : Container) : BuilderPod :=
  { name := componentName
    restartPolicyNever := true
    runAsUser := 0
    initContainers := [init]
    containers := [builder]
    volumes :=
      [⟨kanikoSecret, .secret regcredName [⟨".dockerconfigjson", "config.json"⟩]⟩,
       ⟨buildContext, .emptyDir⟩] }

/-- The pod `runKaniko` creates; `isImageRegistryInternal` is the flag
`runKaniko` receives from `Build` — it is never consulted when building the
pod, matching the Go function which ignores its
`isImageRegistryInternal` parameter on this path. -/
def runKanikoBuilderPod (componentName tag : String) (isImageRegistryInternal : Bool) : BuilderPod :=
  createKanikoBuilderPod componentName (initContainer "init") (builderContainer "build" tag)

/-! ## Manifest variable substitution (adapter.go, `substitueYamlVariables`)

The Go `text/template` engine is an external collaborator; a `TemplateDoc`
records the outcome of its two calls on a given document text and
substitution map: the `template.Parse` result, and — when parsing succeeded —
the buffer contents and error of `tmpl.Execute` (on an execute error the
buffer may hold a partial expansion).  The adapter wraps a parse error, and
discards the execute error (`_ = tmpl.Execute(&buf, yamlSubstitutions)`),
returning the buffer bytes with a nil error. -/

structure TemplateDoc where
  parseError : Option String
  execOutput : String
  execError : Option String

def substitueYamlVariables (doc : TemplateDoc) : Except String String :=
  match doc.parseError with
  | some e => .error ("error creating template: " ++ e)
  | none => .ok doc.execOutput

/-! ## In-cluster build with cleanup (adapter.go, `runBuildConfig`)

Each collaborator call of `runBuildConfig` is an oracle field: `none` means
the call succeeded, `some e` that it failed with error `e` (for
`WaitForBuildToFinish` this includes the 5-minute timeout).  After
`CreateDockerBuildConfigWithBinaryInput` succeeds the Go code installs

```
defer func() {
    derr := client.DeleteBuildConfig(commonObjectMeta)
    if err == nil { err = derr }
}()
```

so every later return path deletes the BuildConfig and reports the cleanup
error only when no primary error is set. -/

structure BuildConfigSteps where
  createBC : Option String
  syncFiles : Option String
  runBC : Option String
  waitForBuild : Option String
  deleteBC : Option String

structure BuildConfigRun where
  err : Option String
  deletedBC : Bool
deriving DecidableEq

/-- The deferred cleanup: runs `DeleteBuildConfig` and applies the
`if err == nil { err = derr }` override rule to the primary error. -/
def finishBuildConfig (steps : BuildConfigSteps) (primary : Option String) : BuildConfigRun :=
  { err :=
      match primary with
      | some e => some e
      | none => steps.deleteBC
    deletedBC := true }

def runBuildConfig (steps : BuildConfigSteps) : BuildConfigRun :=
  match steps.createBC with
  | some e => { err := some e, deletedBC := false }
  | none =>
    match steps.syncFiles with
    | some e => finishBuildConfig steps (some e)
    | none =>
      match steps.runBC with
      | some e => finishBuildConfig steps (some e)
      | none =>
        match steps.waitForBuild with
        | some e => finishBuildConfig steps (some e)
        | none => finishBuildConfig steps none

/-- The first error raised by a post-creation step of `runBuildConfig`, in
control-flow order. -/
def primaryBuildError (steps : BuildConfigSteps) : Option String :=
  (steps.syncFiles.orElse fun _ => steps.runBC).orElse fun _ => steps.waitForBuild

/-! ## Existence-check error handling (adapter.go, `Delete` and `Push`)

`utils.ComponentExists` returns a boolean or a cluster error.  `Delete`
treats a forbidden error as a warning plus a nil return; `Push` wraps any
error and returns it. -/

inductive ClusterError where
  | forbidden
  | notFound
  | other (msg : String)
deriving DecidableEq

inductive ExistenceCheckOutcome where
  | warnNoop
  | proceed (componentExists : Bool)
  | abort (e : ClusterError)
deriving DecidableEq

/-- Delete (adapter.go 925–944): `kerrors.IsForbidden(err)` logs a warning and
returns nil; any other error is wrapped and returned; a missing component
also warns and returns nil; otherwise deletion proceeds. -/
def deleteOnExistenceCheck : Except ClusterError Bool → ExistenceCheckOutcome
  | .error .forbidden => .warnNoop
  | .error e => .abort e
  | .ok false => .warnNoop
  | .ok true => .proceed true

/-- Push (adapter.go 419–423): any error from the existence check — forbidden
included — is wrapped with "unable to determine if component exists" and
returned. -/
def pushOnExistenceCheck : Except ClusterError Bool → ExistenceCheckOutcome
  | .error e => .abort e
  | .ok b => .proceed b

/-! ## Command execution (adapter.go, `execDevfile`, `execDevfileEvent`, `Push`)

A devfile command (versionsCommon.DevfileCommand) carries an optional exec
part (id and target container) and an optional composite part (ordered list
of referenced command ids).  Dispatch emits actions naming the helpers of
`pkg/exec` that the adapter calls. -/

structure DevfileExec where
  id : String
  component : String
deriving DecidableEq

/-- Modelled from the spec: `common.IsRestartRequired` (pkg/devfile/adapters/
common) is not under src/; per spec §4.3 restart is avoided when "the
selected command's metadata states a restart is not required", so the
command's metadata is carried as the `restartRequired` flag and
`IsRestartRequired` reads it. -/
structure DevfileCommand where
  exec : Option DevfileExec
  composite : Option (List String)
  restartRequired : Bool
deriving DecidableEq

def IsRestartRequired (command : DevfileCommand) : Bool :=
  command.restartRequired

/-- The field access `command.Exec.Id` (Go dereference; the adapter only
reaches it for exec commands). -/
def execId (e : Option DevfileExec) : String :=
  match e with
  | some ex => ex.id
  | none => ""

def execComponent (e : Option DevfileExec) : String :=
  match e with
  | some ex => ex.component
  | none => ""

inductive ExecAction where
  | compositeAction (refs : List String)
  | syncExec (id : String)
  | initSupervisord (container : String)
  | runWithoutRestart (id : String)
  | debugWithoutRestart (id : String)
  | runWithRestart (id : String)
  | debugWithRestart (id : String)
deriving DecidableEq

/-- `ExecuteDevfileRunAction` / `ExecuteDevfileDebugAction` (re)start the
supervised process; the without-restart variants deliver the command line to
the already-running supervisor. -/
def isProcessRestartAction : ExecAction → Bool
  | .runWithRestart _ => true
  | .debugWithRestart _ => true
  | _ => false

/-- The `if command.Composite != nil {...} else {...}` dispatch used for the
init and build groups of `execDevfile` and for each event command of
`execDevfileEvent`. -/
def dispatchSync (command : DevfileCommand) : ExecAction :=
  match command.composite with
  | some refs => .compositeAction refs
  | none => .syncExec (execId command.exec)

structure PushCommandsMap where
  initCmd : Option DevfileCommand
  buildCmd : Option DevfileCommand
  runCmd : Option DevfileCommand
  debugCmd : Option DevfileCommand
deriving DecidableEq

/-- `execDevfile` (adapter.go 746–838) on its success path: init (only when
the component did not exist), then build, then the run or debug command.  For
run/debug: the supervisord bootstrap runs first when the component is new and
the command is an exec; then, when the component existed and
`IsRestartRequired` is false, the without-restart variant is dispatched and
the function returns; otherwise the restarting variant runs. -/
def execDevfile (commandsMap : PushCommandsMap) (componentExists isDebug : Bool) :
    List ExecAction :=
  let initActions :=
    if componentExists then []
    else
      match commandsMap.initCmd with
      | none => []
      | some command => [dispatchSync command]
  let buildActions :=
    match commandsMap.buildCmd with
    | none => []
    | some command => [dispatchSync command]
  let runDebugActions :=
    match (if isDebug then commandsMap.debugCmd else commandsMap.runCmd) with
    | none => []
    | some command =>
      let pre :=
        if !componentExists && command.exec.isSome then
          [ExecAction.initSupervisord (execComponent command.exec)]
        else []
      if componentExists && !IsRestartRequired command then
        pre ++ [if isDebug then ExecAction.debugWithoutRestart (execId command.exec)
                else ExecAction.runWithoutRestart (execId command.exec)]
      else
        pre ++ [if isDebug then ExecAction.debugWithRestart (execId command.exec)
                else ExecAction.runWithRestart (execId command.exec)]
  initActions ++ buildActions ++ runDebugActions

/-- `strings.ToLower`, as the per-character lowering over the character list
(command ids are ASCII; structural recursion so it evaluates in the
kernel). -/
def toLowerStr (s : String) : String :=
  String.mk (s.data.map Char.toLower)

/-- `execDevfileEvent` (adapter.go 843–871): each event command id is looked
up after `strings.ToLower`; a Go map read yields the zero value for a missing
key, so the command map is a total function. -/
def execDevfileEvent (commandMap : String → DevfileCommand) (events : List String) :
    List ExecAction :=
  events.map fun commandName => dispatchSync (commandMap (toLowerStr commandName))

/-! ## Push pipeline order (adapter.go, `Push`, 419–538)

On the success path, after validation `Push` reconciles the cluster
resources (`createOrUpdateComponent`, rollout wait, pod-ready wait), syncs
files (yielding `execRequired`), runs the postStart hook only when the
component did not previously exist and the devfile declares postStart
events, and finally calls `execDevfile` only when the sync reported that
execution is required. -/

inductive PushStep where
  | reconcileResources
  | postStartHook (events : List String)
  | commandDispatch (actions : List ExecAction)
deriving DecidableEq

def isDispatchStep : PushStep → Bool
  | .commandDispatch _ => true
  | _ => false

def pushSteps (componentExists : Bool) (postStartEvents : List String)
    (execRequired : Bool) (commandsMap : PushCommandsMap) (isDebug : Bool) :
    List PushStep :=
  [PushStep.reconcileResources]
    ++ (if componentExists = false ∧ postStartEvents ≠ [] then
          [PushStep.postStartHook postStartEvents]
        else [])
    ++ (if execRequired then
          [PushStep.commandDispatch (execDevfile commandsMap componentExists isDebug)]
        else [])

/-! ## Resource reconciliation (adapter.go, `createOrUpdateComponent`)

### Volume → PVC bindings (lines 602–642)

`containerNameToVolumes` maps container names to the volumes they
reference.  The loop walks every volume of every container, skips names
already in `processedVolumes`, generates a PVC name
(`storage.GeneratePVCNameFromDevfileVol`, a collaborator, here the oracle
`gen`), and overrides it with the name of an existing labelled PVC when
`storage.GetExistingPVC` (oracle `existingPVC`, empty string = none) finds
one. -/

structure DevfileVolume where
  name : String
  size : String
deriving DecidableEq

structure Storage where
  name : String
  volume : DevfileVolume
deriving DecidableEq

/-- One iteration of the volume loop body; the accumulator carries
(`processedVolumes`, `uniqueStorages`). -/
def addVolume (gen existingPVC : String → String)
    (acc : List String × List Storage) (vol : DevfileVolume) : List String × List Storage :=
  if vol.name ∈ acc.1 then acc
  else
    let generatedPVCName := gen vol.name
    let finalName :=
      if (existingPVC vol.name).length > 0 then existingPVC vol.name else generatedPVCName
    (vol.name :: acc.1, acc.2 ++ [⟨finalName, vol⟩])

/-- The `uniqueStorages` list built by the nested loop over
`containerNameToVolumes`. -/
def uniqueStorages (gen existingPVC : String → String)
    (containerNameToVolumes : List (String × List DevfileVolume)) : List Storage :=
  (((containerNameToVolumes.map Prod.snd).flatten).foldl (addVolume gen existingPVC) ([], [])).2

/-- The PVC name the loop settles on for a volume: the existing labelled
PVC's name when one is on the cluster, the generated name otherwise. -/
def settledPVCName (gen existingPVC : String → String) (volName : String) : String :=
  if (existingPVC volName).length > 0 then existingPVC volName else gen volName

/-! ### Service reconciliation (lines 650–719)

`ports` is the port list of the generated service spec (the union of the
container ports; its ClusterIP field starts empty); `liveService` is the
result of the live `Services(...).Get` call, `none` when that call errored
(no old service).  The emitted operations name the cluster-client calls. -/

structure LiveService where
  clusterIP : String
  resourceVersion : String
deriving DecidableEq

inductive ApiOperation where
  | createDeployment
  | updateDeployment
  | createService (ports : List Nat)
  | updateService (resourceVersion clusterIP : String) (ports : List Nat)
  | deleteService
deriving DecidableEq

def reconcileServiceOps (componentExists : Bool) (ports : List Nat)
    (liveService : Option LiveService) : List ApiOperation :=
  if componentExists then
    ApiOperation.updateDeployment ::
      (match liveService with
       | none => if ports ≠ [] then [ApiOperation.createService ports] else []
       | some oldSvc =>
         if ports ≠ [] then
           [ApiOperation.updateService oldSvc.resourceVersion oldSvc.clusterIP ports]
         else [ApiOperation.deleteService])
  else
    ApiOperation.createDeployment ::
      (if ports ≠ [] then [ApiOperation.createService ports] else [])

end Odo

open Odo

/-- C4: internal-registry detection fails with a validation error exactly when
splitting the tag on `/` does not give three segments; with three segments the
tag is internal exactly when the first segment is the fixed internal registry
host. `"myrepo/foo"` is rejected; the three-segment internal-registry tag is
accepted and classified internal. -/
theorem C4_tag_validation :
    (∀ tag : String, (∃ e, isInternalRegistry tag = .error e) ↔ (splitSlash tag).length ≠ 3)
    ∧ (∀ tag : String, (splitSlash tag).length = 3 →
        (isInternalRegistry tag = .ok true ↔ (splitSlash tag).headD "" = internalRegistryHost))
    ∧ (∃ e, isInternalRegistry "myrepo/foo" = .error e)
    ∧ isInternalRegistry "image-registry.openshift-image-registry.svc:5000/ns/app:latest" = .ok true := by
  refine ⟨?_, ?_, ?_, ?_⟩
  · intro tag
    constructor
    · rintro ⟨e, he⟩ hlen
      unfold isInternalRegistry at he
      rw [if_neg (fun h => h hlen)] at he
      split at he <;> simp at he
    · intro hlen
      exact ⟨"Invalid image tag " ++ tag ++ ", must contain 3 components",
        by rw [isInternalRegistry, if_pos hlen]⟩
  · intro tag hlen
    unfold isInternalRegistry
    rw [if_neg (fun h => h hlen)]
    split <;> simp_all
  · exact ⟨_, rfl⟩
  · rfl

/-- C4 witness: a concrete three-segment tag, with the hypothesis discharged
and the conclusion evaluated. -/
theorem C4_tag_validation_witness :
    isInternalRegistry "myregistry.io/ns/app" = .ok true ↔
      (splitSlash "myregistry.io/ns/app").headD "" = internalRegistryHost :=
  C4_tag_validation.2.1 "myregistry.io/ns/app" (by decide)

/-- C9: when the manifest document parses successfully as a template, variable
substitution returns a nil error even if applying the substitution map fails
during template execution; the execution error is discarded and the (possibly
partial) buffer contents are returned as the success value. -/
theorem C9_template_exec_error_discarded (doc : TemplateDoc) (e : String)
    (hp : doc.parseError = none) (he : doc.execError = some e) :
    substitueYamlVariables doc = .ok doc.execOutput := by
  unfold substitueYamlVariables
  rw [hp]

/-- C9 witness: a document that parses but whose execution fails still yields
a success carrying the partial buffer. -/
theorem C9_template_exec_error_discarded_witness :
    substitueYamlVariables ⟨none, "partial out", some "map has no entry"⟩ =
      .ok "partial out" :=
  C9_template_exec_error_discarded ⟨none, "partial out", some "map has no entry"⟩
    "map has no entry" rfl rfl

/-- C8: once the BuildConfig has been created, every exit path of
`runBuildConfig` (success, failure of a later step, or build timeout) deletes
the ephemeral BuildConfig, and the deletion error is reported only when no
primary error is already set; a primary error always wins. -/
theorem C8_buildconfig_cleanup (steps : BuildConfigSteps) (hc : steps.createBC = none) :
    (runBuildConfig steps).deletedBC = true
    ∧ (∀ e, primaryBuildError steps = some e → (runBuildConfig steps).err = some e)
    ∧ (primaryBuildError steps = none → (runBuildConfig steps).err = steps.deleteBC) := by
  obtain ⟨c, s, r, w, d⟩ := steps
  simp only at hc
  subst hc
  cases s <;> cases r <;> cases w <;>
    simp [runBuildConfig, finishBuildConfig, primaryBuildError, Option.orElse]

/-- C8 witness: sync fails and the deferred deletion also fails; the
BuildConfig is deleted and the sync error is the one reported. -/
theorem C8_buildconfig_cleanup_witness :
    (runBuildConfig ⟨none, some "sync failed", none, none, some "delete failed"⟩).deletedBC = true
    ∧ (runBuildConfig ⟨none, some "sync failed", none, none, some "delete failed"⟩).err =
        some "sync failed" := by
  have h := C8_buildconfig_cleanup ⟨none, some "sync failed", none, none, some "delete failed"⟩ rfl
  exact ⟨h.1, h.2.1 "sync failed" rfl⟩

/-- C5 counterexample: the claim says every operation degrades a forbidden
existence-check failure to a warning plus no-op success, but `Push` aborts
with the wrapped error instead. -/
theorem C5_counterexample :
    pushOnExistenceCheck (.error .forbidden) = .abort .forbidden
    ∧ pushOnExistenceCheck (.error .forbidden) ≠ .warnNoop := by
  exact ⟨rfl, by decide⟩

/-- C5 (amended): `Delete` degrades a forbidden existence-check failure to a
warning and a no-op success (any other failure aborts), while `Push`
propagates every existence-check failure, forbidden included, as an error. -/
theorem C5_forbidden_existence_check :
    deleteOnExistenceCheck (.error .forbidden) = .warnNoop
    ∧ (∀ e, e ≠ ClusterError.forbidden → deleteOnExistenceCheck (.error e) = .abort e)
    ∧ (∀ e, pushOnExistenceCheck (.error e) = .abort e) := by
  refine ⟨rfl, ?_, fun e => rfl⟩
  intro e he
  cases e with
  | forbidden => exact absurd rfl he
  | notFound => rfl
  | other m => rfl

/-- C5 witness: a not-found existence-check failure aborts `Delete`, applying
the amended theorem at a concrete error. -/
theorem C5_forbidden_existence_check_witness :
    deleteOnExistenceCheck (.error .notFound) = .abort .notFound :=
  C5_forbidden_existence_check.2.1 ClusterError.notFound (by decide)

/-- C3: whenever `Build` reaches strategy selection, the in-cluster
binary-input BuildConfig strategy is chosen if and only if the cluster
supports BuildConfig and the rootless flag was not set; every other
combination selects the pod-based kaniko strategy. -/
theorem C3_build_strategy_selection (isBuildConfigSupported rootless : Bool) (tag : String)
    (choice : BuildChoice) (h : Build isBuildConfigSupported rootless tag = .ok choice) :
    (choice.strategy = .buildConfig ↔ isBuildConfigSupported = true ∧ rootless = false)
    ∧ (choice.strategy = .kaniko ↔ ¬(isBuildConfigSupported = true ∧ rootless = false)) := by
  unfold Build at h
  cases hreg : isInternalRegistry tag with
  | error e => rw [hreg] at h; exact absurd h (by simp)
  | ok internal =>
    rw [hreg] at h
    simp only at h
    cases isBuildConfigSupported <;> cases rootless <;>
      simp_all <;> (subst h; simp)

/-- C3 witness: a supported, non-rootless build on a valid external tag
selects the BuildConfig strategy. -/
theorem C3_build_strategy_selection_witness :
    (BuildChoice.mk .buildConfig false true).strategy = .buildConfig ↔
      true = true ∧ false = false :=
  (C3_build_strategy_selection true false "quay.io/ns/app" ⟨.buildConfig, false, true⟩ rfl).1

/-- C10: the kaniko builder pod always mounts a secret volume referencing the
fixed secret name `regcred`, independent of whether the destination registry
is internal — even though `Build` creates the `regcred` secret exactly when
the registry is *not* internal, so the internal-registry kaniko path
references a secret that was never created. -/
theorem C10_kaniko_regcred_volume :
    (∀ componentName tag (isImageRegistryInternal : Bool),
      ∃ v ∈ (runKanikoBuilderPod componentName tag isImageRegistryInternal).volumes,
        v.source = VolumeSource.secret regcredName [⟨".dockerconfigjson", "config.json"⟩])
    ∧ (∀ isBuildConfigSupported rootless tag choice,
        Build isBuildConfigSupported rootless tag = .ok choice →
          choice.regcredSecretCreated = !choice.internalRegistry) := by
  constructor
  · intro componentName tag isImageRegistryInternal
    exact ⟨⟨kanikoSecret, .secret regcredName [⟨".dockerconfigjson", "config.json"⟩]⟩,
      by simp [runKanikoBuilderPod, createKanikoBuilderPod], rfl⟩
  · intro s r tag choice h
    unfold Build at h
    cases hreg : isInternalRegistry tag with
    | error e => rw [hreg] at h; exact absurd h (by simp)
    | ok internal =>
      rw [hreg] at h
      simp only at h
      split at h <;> (injection h with h; subst h; rfl)

/-- C1: when the component already existed before the push and the selected
Run (or Debug) command's metadata marks restart as not required, `execDevfile`
dispatches the command through the without-restart supervisor action and no
action of the dispatch is a process-restart action. -/
theorem C1_restart_avoidance (commandsMap : PushCommandsMap) (isDebug : Bool)
    (command : DevfileCommand) (e : DevfileExec)
    (hsel : (if isDebug then commandsMap.debugCmd else commandsMap.runCmd) = some command)
    (hexec : command.exec = some e)
    (hnr : IsRestartRequired command = false) :
    ((if isDebug then ExecAction.debugWithoutRestart e.id else ExecAction.runWithoutRestart e.id)
        ∈ execDevfile commandsMap true isDebug)
    ∧ (∀ a ∈ execDevfile commandsMap true isDebug, isProcessRestartAction a = false) := by
  have hkey : execDevfile commandsMap true isDebug =
      (match commandsMap.buildCmd with
       | none => []
       | some c => [dispatchSync c]) ++
      [if isDebug then ExecAction.debugWithoutRestart e.id
       else ExecAction.runWithoutRestart e.id] := by
    unfold execDevfile
    rw [hsel]
    simp [hnr, hexec, execId]
  constructor
  · rw [hkey]
    cases commandsMap.buildCmd <;> simp
  · intro a ha
    rw [hkey] at ha
    rcases List.mem_append.mp ha with h | h
    · cases hb : commandsMap.buildCmd with
      | none => rw [hb] at h; simp at h
      | some c =>
        rw [hb] at h
        simp at h
        subst h
        unfold dispatchSync
        cases c.composite <;> rfl
    · simp at h
      subst h
      cases isDebug <;> rfl

/-- C1 witness: an existing component with a non-restart Run command is
dispatched through the without-restart run action only. -/
theorem C1_restart_avoidance_witness :
    (ExecAction.runWithoutRestart "run" ∈
      execDevfile ⟨none, none, some ⟨some ⟨"run", "runtime"⟩, none, false⟩, none⟩ true false)
    ∧ (∀ a ∈ execDevfile ⟨none, none, some ⟨some ⟨"run", "runtime"⟩, none, false⟩, none⟩ true false,
        isProcessRestartAction a = false) :=
  C1_restart_avoidance ⟨none, none, some ⟨some ⟨"run", "runtime"⟩, none, false⟩, none⟩
    false ⟨some ⟨"run", "runtime"⟩, none, false⟩ ⟨"run", "runtime"⟩ rfl rfl rfl

/-- C6: the postStart hook step occurs in a push exactly when the component
did not previously exist (and the devfile declares postStart events); its
presence does not depend on the sync-reported `execRequired` flag; the
resource-reconciliation step is always first and the hook precedes every
Run/Debug command-dispatch step; and event command ids resolve
case-insensitively (two ids with the same lowercasing resolve identically). -/
theorem C6_poststart_hook (postStartEvents : List String) (commandsMap : PushCommandsMap)
    (isDebug : Bool) :
    (∀ (componentExists execRequired : Bool),
      (PushStep.postStartHook postStartEvents ∈
          pushSteps componentExists postStartEvents execRequired commandsMap isDebug)
        ↔ (componentExists = false ∧ postStartEvents ≠ []))
    ∧ (∀ (componentExists execRequired execRequired' : Bool),
        (PushStep.postStartHook postStartEvents ∈
            pushSteps componentExists postStartEvents execRequired commandsMap isDebug)
          ↔ (PushStep.postStartHook postStartEvents ∈
              pushSteps componentExists postStartEvents execRequired' commandsMap isDebug))
    ∧ (∀ (componentExists execRequired : Bool),
        (pushSteps componentExists postStartEvents execRequired commandsMap isDebug).head? =
          some PushStep.reconcileResources)
    ∧ (∀ (componentExists execRequired : Bool) (i j : Nat)
        (hi : i < (pushSteps componentExists postStartEvents execRequired commandsMap isDebug).length)
        (hj : j < (pushSteps componentExists postStartEvents execRequired commandsMap isDebug).length),
        (pushSteps componentExists postStartEvents execRequired commandsMap isDebug)[i] =
            PushStep.postStartHook postStartEvents →
        isDispatchStep ((pushSteps componentExists postStartEvents execRequired commandsMap isDebug)[j]) = true →
        i < j)
    ∧ (∀ (commandMap : String → DevfileCommand) (n₁ n₂ : String),
        toLowerStr n₁ = toLowerStr n₂ →
          execDevfileEvent commandMap [n₁] = execDevfileEvent commandMap [n₂]) := by
  refine ⟨?_, ?_, ?_, ?_, ?_⟩
  · intro ce er
    by_cases h : ce = false ∧ postStartEvents ≠ [] <;> cases er <;> simp [pushSteps, h]
  · intro ce er er'
    by_cases h : ce = false ∧ postStartEvents ≠ [] <;>
      cases er <;> cases er' <;> simp [pushSteps, h]
  · intro ce er
    by_cases h : ce = false ∧ postStartEvents ≠ [] <;> simp [pushSteps, h]
  · intro ce er i j hi hj hhook hdisp
    cases ce <;> by_cases hev : postStartEvents = [] <;> cases er <;>
      simp [pushSteps, hev] at hi hj hhook hdisp <;>
      (interval_cases i <;> interval_cases j <;> simp_all [isDispatchStep])
  · intro commandMap n₁ n₂ hlow
    simp [execDevfileEvent, hlow]

/-- C6 witness: a fresh component with one postStart event and `execRequired =
false` still contains the postStart hook step, and the event ids `Setup` and
`setup` resolve to the same command. -/
theorem C6_poststart_hook_witness :
    ((PushStep.postStartHook ["Setup"] ∈
        pushSteps false ["Setup"] false ⟨none, none, none, none⟩ false)
      ↔ ((false : Bool) = false ∧ (["Setup"] : List String) ≠ []))
    ∧ execDevfileEvent (fun _ => ⟨some ⟨"setup", "runtime"⟩, none, false⟩) ["Setup"] =
        execDevfileEvent (fun _ => ⟨some ⟨"setup", "runtime"⟩, none, false⟩) ["setup"] :=
  ⟨(C6_poststart_hook ["Setup"] ⟨none, none, none, none⟩ false).1 false false,
   (C6_poststart_hook ["Setup"] ⟨none, none, none, none⟩ false).2.2.2.2
     (fun _ => ⟨some ⟨"setup", "runtime"⟩, none, false⟩) "Setup" "setup" (by decide)⟩

/-- C2: when the desired port set is non-empty and a live Service exists, the
reconciliation of an existing component issues a Service update that carries
the live Service's clusterIP and resource version; and every Service update
the reconciliation can ever emit copies both fields from the live Service. -/
theorem C2_service_clusterip_preserved (ports : List Nat) (oldSvc : LiveService)
    (hports : ports ≠ []) :
    reconcileServiceOps true ports (some oldSvc) =
      [ApiOperation.updateDeployment,
       ApiOperation.updateService oldSvc.resourceVersion oldSvc.clusterIP ports]
    ∧ (∀ (componentExists : Bool) (ps pts : List Nat) (live : Option LiveService) (rv ip : String),
        ApiOperation.updateService rv ip pts ∈ reconcileServiceOps componentExists ps live →
          ∃ old, live = some old ∧ rv = old.resourceVersion ∧ ip = old.clusterIP) := by
  constructor
  · simp [reconcileServiceOps, hports]
  · intro ce ps pts live rv ip hmem
    cases ce with
    | false => by_cases hp : ps = [] <;> simp [reconcileServiceOps, hp] at hmem
    | true =>
      cases live with
      | none => by_cases hp : ps = [] <;> simp [reconcileServiceOps, hp] at hmem
      | some old =>
        by_cases hp : ps = [] <;> simp [reconcileServiceOps, hp] at hmem
        exact ⟨old, rfl, hmem.1, hmem.2.1⟩

/-- C2 witness: a live Service with ClusterIP `10.0.0.5` and resource version
`42` is updated carrying exactly those two values. -/
theorem C2_service_clusterip_preserved_witness :
    reconcileServiceOps true [3000] (some ⟨"10.0.0.5", "42"⟩) =
      [ApiOperation.updateDeployment, ApiOperation.updateService "42" "10.0.0.5" [3000]] :=
  (C2_service_clusterip_preserved [3000] ⟨"10.0.0.5", "42"⟩ (by decide)).1

/-- Invariant of the volume loop of `createOrUpdateComponent`: starting from
an accumulator whose processed set matches the names already bound, the fold
keeps the bound names duplicate-free, names every binding by the
existing-else-generated rule, and binds exactly the processed and newly seen
names. -/
theorem uniqueStorages_foldl_inv (gen existingPVC : String → String)
    (vols : List DevfileVolume) (processed : List String) (sts : List Storage)
    (hsync : ∀ n, n ∈ processed ↔ n ∈ sts.map (fun s => s.volume.name))
    (hnd : (sts.map (fun s => s.volume.name)).Nodup)
    (hname : ∀ s ∈ sts, s.name = settledPVCName gen existingPVC s.volume.name) :
    (((vols.foldl (addVolume gen existingPVC) (processed, sts)).2.map
        (fun s => s.volume.name)).Nodup)
    ∧ (∀ s ∈ (vols.foldl (addVolume gen existingPVC) (processed, sts)).2,
        s.name = settledPVCName gen existingPVC s.volume.name)
    ∧ (∀ n, n ∈ (vols.foldl (addVolume gen existingPVC) (processed, sts)).2.map
          (fun s => s.volume.name) ↔
        n ∈ processed ∨ n ∈ vols.map (fun v => v.name)) := by
  induction vols generalizing processed sts with
  | nil =>
    refine ⟨hnd, hname, fun n => ?_⟩
    simp [(hsync n).symm]
  | cons v vs ih =>
    simp only [List.foldl_cons]
    by_cases hmem : v.name ∈ processed
    · have hstep : addVolume gen existingPVC (processed, sts) v = (processed, sts) := by
        simp [addVolume, hmem]
      rw [hstep]
      obtain ⟨h1, h2, h3⟩ := ih processed sts hsync hnd hname
      refine ⟨h1, h2, fun n => ?_⟩
      rw [h3 n]
      simp only [List.map_cons, List.mem_cons]
      constructor
      · rintro (h | h)
        · exact Or.inl h
        · exact Or.inr (Or.inr h)
      · rintro (h | h | h)
        · exact Or.inl h
        · exact Or.inl (h ▸ hmem)
        · exact Or.inr h
    · have hstep : addVolume gen existingPVC (processed, sts) v =
          (v.name :: processed,
           sts ++ [⟨settledPVCName gen existingPVC v.name, v⟩]) := by
        simp [addVolume, hmem, settledPVCName]
      rw [hstep]
      have hvn : v.name ∉ sts.map (fun s => s.volume.name) :=
        fun hc => hmem ((hsync v.name).mpr hc)
      have hsync' : ∀ n, n ∈ v.name :: processed ↔
          n ∈ (sts ++ [(⟨settledPVCName gen existingPVC v.name, v⟩ : Storage)]).map
            (fun s => s.volume.name) := by
        intro n
        simp only [List.mem_cons, List.map_append, List.mem_append, List.map_cons,
          List.map_nil, List.mem_singleton, hsync n]
        tauto
      have hnd' : ((sts ++ [(⟨settledPVCName gen existingPVC v.name, v⟩ : Storage)]).map
          (fun s => s.volume.name)).Nodup := by
        rw [List.map_append, List.nodup_append]
        refine ⟨hnd, by simp, ?_⟩
        intro a ha hb
        simp only [List.map_cons, List.map_nil, List.mem_singleton] at hb
        subst hb
        exact hvn ha
      have hname' : ∀ s ∈ sts ++ [(⟨settledPVCName gen existingPVC v.name, v⟩ : Storage)],
          s.name = settledPVCName gen existingPVC s.volume.name := by
        intro s hs
        rcases List.mem_append.mp hs with h | h
        · exact hname s h
        · simp only [List.mem_singleton] at h
          subst h
          rfl
      obtain ⟨h1, h2, h3⟩ := ih (v.name :: processed) _ hsync' hnd' hname'
      refine ⟨h1, h2, fun n => ?_⟩
      rw [h3 n]
      simp only [List.mem_cons, List.map_cons]
      tauto

/-- C7: reconciliation produces exactly one PVC binding per distinct volume
name referenced by at least one container — the bound names are
duplicate-free and are exactly the referenced names — and each binding reuses
the name of an existing labelled PVC when the cluster has one, falling back
to the generated name otherwise. -/
theorem C7_volume_dedup (gen existingPVC : String → String)
    (containerNameToVolumes : List (String × List DevfileVolume)) :
    ((uniqueStorages gen existingPVC containerNameToVolumes).map
        (fun s => s.volume.name)).Nodup
    ∧ (∀ n, n ∈ (uniqueStorages gen existingPVC containerNameToVolumes).map
          (fun s => s.volume.name) ↔
        n ∈ ((containerNameToVolumes.map Prod.snd).flatten).map (fun v => v.name))
    ∧ (∀ s ∈ uniqueStorages gen existingPVC containerNameToVolumes,
        s.name = settledPVCName gen existingPVC s.volume.name)
    ∧ (∀ s ∈ uniqueStorages gen existingPVC containerNameToVolumes,
        (existingPVC s.volume.name).length > 0 → s.name = existingPVC s.volume.name) := by
  obtain ⟨h1, h2, h3⟩ := uniqueStorages_foldl_inv gen existingPVC
    ((containerNameToVolumes.map Prod.snd).flatten) [] []
    (by simp) (by simp) (by simp)
  refine ⟨h1, fun n => ?_, h2, fun s hs hpos => ?_⟩
  · rw [uniqueStorages, h3 n]
    simp
  · rw [h2 s hs, settledPVCName, if_pos hpos]

/-- C7 witness: two containers referencing the same volume name yield exactly
one binding, and with an existing labelled PVC on the cluster its name is
reused. -/
theorem C7_volume_dedup_witness :
    (((uniqueStorages (fun v => v ++ "-comp") (fun _ => "ex-pvc")
          [("c1", [⟨"vol", "1Gi"⟩]), ("c2", [⟨"vol", "1Gi"⟩])]).map
        (fun s => s.volume.name)).Nodup)
    ∧ (⟨"ex-pvc", ⟨"vol", "1Gi"⟩⟩ : Storage).name = "ex-pvc" := by
  have h := C7_volume_dedup (fun v => v ++ "-comp") (fun _ => "ex-pvc")
    [("c1", [⟨"vol", "1Gi"⟩]), ("c2", [⟨"vol", "1Gi"⟩])]
  refine ⟨h.1, ?_⟩
  have := h.2.2.2 ⟨"ex-pvc", ⟨"vol", "1Gi"⟩⟩ (by decide) (by decide)
  exact this

/-- C10 witness: an internal-registry kaniko build still mounts the `regcred`
secret, while `Build` records that no `regcred` secret was created. -/
theorem C10_kaniko_regcred_volume_witness :
    (∃ v ∈ (runKanikoBuilderPod "comp" "image-registry.openshift-image-registry.svc:5000/ns/app" true).volumes,
      v.source = VolumeSource.secret regcredName [⟨".dockerconfigjson", "config.json"⟩])
    ∧ (BuildChoice.mk .kaniko true false).regcredSecretCreated =
        !(BuildChoice.mk .kaniko true false).internalRegistry :=
  ⟨C10_kaniko_regcred_volume.1 "comp" "image-registry.openshift-image-registry.svc:5000/ns/app" true,
   C10_kaniko_regcred_volume.2 true true
     "image-registry.openshift-image-registry.svc:5000/ns/app" ⟨.kaniko, true, false⟩ rfl⟩
